import Mathlib

/-!
Shallow embedding of the round-based two-sided wagering game server
(`src/server.js`).  Mutable global `gameData` becomes an explicit state
record; each socket event handler and each deferred timer body becomes a
pure function from state to state plus the list of emitted notifications.
JS numbers used for wager amounts and payouts are modelled as rationals
(all arithmetic performed by the source on the inputs we consider is exact
in double precision, so ℚ is faithful); participant ids and sides are
strings, exactly as the source stores them (the play handler performs no
validation of `side` or `point`).
-/

namespace GameBackend

/-- `currentBets[id] = { side, amount }` in the source. -/
structure Bet where
  side : String
  amount : ℚ
deriving DecidableEq

/-- One entry of `playerResults` built during settlement. -/
structure PlayerResult where
  won : Bool
  amount : ℚ
  originalBet : ℚ
  side : String
deriving DecidableEq

/-- The global `gameData` object.  JS objects keyed by socket id are
modelled as association lists in insertion order; the `activePlayers`
Set is a duplicate-free list. -/
structure GameData where
  head : List (String × ℚ)
  tale : List (String × ℚ)
  gameHistory : List String
  activePlayers : List String
  currentBets : List (String × Bet)
  isRoundActive : Bool
  roundEndTime : Option Nat
deriving DecidableEq

/-- The notifications the server emits (`io.emit` / `socket.emit`). -/
inductive Emit where
  | gameStart (duration startTime : Nat)
  | gameResult (totalHead totalTale : ℚ) (winner : String) (streak : Nat)
      (multiplier : String) (history : List String)
      (playerResults : List (String × PlayerResult))
  | resetGame
  | betUpdate (headTotal taleTotal : ℚ) (playerId side : String) (amount : ℚ)
  | gameHistoryMsg (history : List String) (activePlayers : List String)
  | updateActivePlayers (activePlayers : List String)
  | playerLeft (playerId : String) (activePlayers : List String)
deriving DecidableEq

/-- `obj[id]` lookup on a JS object modelled as an association list. -/
def lookupId {α : Type} : List (String × α) → String → Option α
  | [], _ => none
  | p :: rest, id => if p.1 == id then some p.2 else lookupId rest id

/-- `obj[id] = v`: replace the value of an existing key in place,
otherwise append the new key (JS insertion-order semantics). -/
def setId {α : Type} : List (String × α) → String → α → List (String × α)
  | [], id, v => [(id, v)]
  | p :: rest, id, v => if p.1 == id then (id, v) :: rest else p :: setId rest id v

/-- `delete obj[id]`. -/
def deleteId {α : Type} : List (String × α) → String → List (String × α)
  | [], _ => []
  | p :: rest, id => if p.1 == id then deleteId rest id else p :: deleteId rest id

/-- `Object.values(m).reduce((acc, val) => acc + val, 0)`. -/
def totalOf (m : List (String × ℚ)) : ℚ :=
  m.foldl (fun acc p => acc + p.2) 0

/-- Winner selection, `server.js` lines 61-64:
lower aggregate total wins, equal totals give a draw. -/
def winnerOf (totalHead totalTale : ℚ) : String :=
  if totalTale < totalHead then "tale"
  else if totalHead < totalTale then "head"
  else "draw"

/-- `gameHistory = [...gameHistory.slice(-9), winner]`, line 66:
keep the last nine entries and append the new outcome. -/
def pushHistory (h : List String) (w : String) : List String :=
  h.drop (h.length - 9) ++ [w]

/-- The backward scan of `calculateStreak`: count matching entries,
stopping at the first mismatch (the loop `break`). -/
def countRun (lastWinner : String) : List String → Nat
  | [] => 0
  | x :: xs => if x == lastWinner then 1 + countRun lastWinner xs else 0

/-- `calculateStreak`, lines 110-125: 0 on empty history, otherwise one
plus the number of entries before the last that match it, scanning
backward from index `length - 2`. -/
def calculateStreak (history : List String) : Nat :=
  match history.reverse with
  | [] => 0
  | lastWinner :: rest => 1 + countRun lastWinner rest

/-- The multiplier value of `calculateMultiplier` in hundredths:
`1.5 + Math.min(streak - 1, 9) * 0.5`, lines 127-131.  The subtraction
is signed (JS `streak - 1` is `-1` at streak 0), hence ℤ. -/
def multiplierHundredths (streak : Nat) : ℤ :=
  150 + min ((streak : ℤ) - 1) 9 * 50

/-- `toFixed(2)` rendering of a value given in hundredths.  Every value
`calculateMultiplier` produces is an exact multiple of 0.5, so the JS
float formatting is exact and this decimal rendering is faithful. -/
def formatHundredths (n : ℤ) : String :=
  let whole := n / 100
  let frac := n % 100
  let fracStr := if frac < 10 then "0" ++ toString frac else toString frac
  toString whole ++ "." ++ fracStr

/-- `calculateMultiplier`, lines 127-131: the formatted string. -/
def calculateMultiplier (streak : Nat) : String :=
  formatHundredths (multiplierHundredths streak)

/-- `parseFloat(multiplier)` used in the payout, line 75.  The values are
exactly representable, so parsing the `toFixed(2)` string returns the
exact rational. -/
def multiplierValue (streak : Nat) : ℚ :=
  (multiplierHundredths streak : ℚ) / 100

/-- The `playerResults` loop of `endRound`, lines 72-82. -/
def computeResults (bets : List (String × Bet)) (winner : String) (mult : ℚ) :
    List (String × PlayerResult) :=
  bets.map (fun p =>
    (p.1,
      { won := p.2.side == winner
        amount := if p.2.side == winner then p.2.amount * mult else 0
        originalBet := p.2.amount
        side := p.2.side }))

/-- `startNewRound`, lines 29-48: no-op if a round is already active,
otherwise activate, set the end time and emit `game-start`. -/
def startNewRound (s : GameData) (now : Nat) : GameData × List Emit :=
  if s.isRoundActive then (s, [])
  else
    ({ s with isRoundActive := true, roundEndTime := some (now + 10 * 1000) },
      [Emit.gameStart 10 now])

/-- `endRound`, lines 50-97: no-op when no round is active (the guard that
neutralises late timer firings); otherwise compute totals, winner,
history, streak, multiplier and per-player results, deactivate the round
and emit `game-result`.  The ledger maps are NOT cleared here. -/
def endRound (s : GameData) : GameData × List Emit :=
  if !s.isRoundActive then (s, [])
  else
    let totalHead := totalOf s.head
    let totalTale := totalOf s.tale
    let winner := winnerOf totalHead totalTale
    let newHistory := pushHistory s.gameHistory winner
    let streak := calculateStreak newHistory
    let playerResults := computeResults s.currentBets winner (multiplierValue streak)
    ({ s with gameHistory := newHistory, isRoundActive := false, roundEndTime := none },
      [Emit.gameResult totalHead totalTale winner streak
        (calculateMultiplier streak) newHistory playerResults])

/-- The body of the 3-second `setTimeout` at the end of `endRound`,
lines 99-107: clear the wager maps and emit `reset-game`.  It does not
consult `activePlayers` and does not start a round. -/
def cooldownReset (s : GameData) : GameData × List Emit :=
  ({ s with head := [], tale := [], currentBets := [] }, [Emit.resetGame])

/-- Lines 157-161 of the play handler: start a round when none is active. -/
def startIfIdle (s : GameData) (now : Nat) : GameData × List Emit :=
  if !s.isRoundActive then startNewRound s now else (s, [])

/-- Lines 163-168 of the play handler: record the bet in the side map
matching `side`; any other side value is recorded in neither map. -/
def recordSide (s : GameData) (id side : String) (point : ℚ) : GameData :=
  if side == "head" then { s with head := setId s.head id point }
  else if side == "tale" then { s with tale := setId s.tale id point }
  else s

/-- The `"play"` event handler, lines 149-187: reject a second bet from
the same id (truthiness check on `currentBets[socket.id]`), start a round
if idle, record the bet in the side map and in `currentBets`, then emit
`bet-update` with the freshly recomputed totals. -/
def playHandler (s : GameData) (id side : String) (point : ℚ) (now : Nat) :
    GameData × List Emit :=
  if (lookupId s.currentBets id).isSome then (s, [])
  else
    let started := startIfIdle s now
    let s2 := recordSide started.1 id side point
    let s3 := { s2 with currentBets := setId s2.currentBets id { side := side, amount := point } }
    (s3, started.2 ++ [Emit.betUpdate (totalOf s3.head) (totalOf s3.tale) id side point])

/-- The `"connection"` handler, lines 133-146: add the id to the active
set (a JS Set ignores duplicates), send the history snapshot and
broadcast the active-player list. -/
def connectionHandler (s : GameData) (id : String) : GameData × List Emit :=
  let s2 := { s with activePlayers :=
      if s.activePlayers.contains id then s.activePlayers else s.activePlayers ++ [id] }
  (s2, [Emit.gameHistoryMsg s2.gameHistory s2.activePlayers,
        Emit.updateActivePlayers s2.activePlayers])

/-- The `"disconnect"` handler, lines 189-211: remove the id from the
active set and from all three wager maps, broadcast the updated list,
and if no players remain force the round inactive. -/
def disconnectHandler (s : GameData) (id : String) : GameData × List Emit :=
  let s2 := { s with
    activePlayers := s.activePlayers.erase id
    currentBets := deleteId s.currentBets id
    head := deleteId s.head id
    tale := deleteId s.tale id }
  let emits := [Emit.updateActivePlayers s2.activePlayers,
                Emit.playerLeft id s2.activePlayers]
  if s2.activePlayers.isEmpty then
    ({ s2 with isRoundActive := false, roundEndTime := none }, emits)
  else (s2, emits)

/-- The initial `gameData` object, lines 17-25. -/
def initialGameData : GameData :=
  { head := []
    tale := []
    gameHistory := []
    activePlayers := []
    currentBets := []
    isRoundActive := false
    roundEndTime := none }

/-! ### Concrete states and event traces used as inputs -/

/-- A mid-round state with two valid wagers (the spec's end-to-end
scenario: A on head for 50, B on tale for 30). -/
def sampleActiveState : GameData :=
  { head := [("A", 50)]
    tale := [("B", 30)]
    gameHistory := []
    activePlayers := ["A", "B"]
    currentBets := [("A", { side := "head", amount := 50 }),
                    ("B", { side := "tale", amount := 30 })]
    isRoundActive := true
    roundEndTime := some 10000 }

/-- A mid-round state whose two wagers balance exactly (the spec's
draw scenario: A on head for 100, B on tale for 100). -/
def sampleDrawState : GameData :=
  { head := [("A", 100)]
    tale := [("B", 100)]
    gameHistory := []
    activePlayers := ["A", "B"]
    currentBets := [("A", { side := "head", amount := 100 }),
                    ("B", { side := "tale", amount := 100 })]
    isRoundActive := true
    roundEndTime := some 10000 }

/-- A mid-round state with a single connected player holding a wager. -/
def soloActiveState : GameData :=
  { head := [("p", 5)]
    tale := []
    gameHistory := []
    activePlayers := ["p"]
    currentBets := [("p", { side := "head", amount := 5 })]
    isRoundActive := true
    roundEndTime := some 10000 }

/-- An idle state with one connected player and no round in flight. -/
def idleState : GameData :=
  { initialGameData with activePlayers := ["q"], gameHistory := ["tale"] }

/-- Trace: player p connects, bets head/5 starting a round, the round
timer fires and the round settles.  The player is still connected. -/
def traceAfterSettle : GameData :=
  (endRound (playHandler (connectionHandler initialGameData "p").1 "p" "head" 5 0).1).1

/-- Trace: A and B connect, A bets head/50 and B bets tale/30 in the
round A's bet started. -/
def traceTwoBets : GameData :=
  (playHandler (playHandler (connectionHandler (connectionHandler initialGameData "A").1
      "B").1 "A" "head" 50 0).1 "B" "tale" 30 0).1

/-- Trace continuation: A disconnects while the round is still active. -/
def traceAfterLeave : GameData := (disconnectHandler traceTwoBets "A").1

/-- Trace: a connected player sends a play event with an invalid side. -/
def traceInvalidSide : GameData :=
  (playHandler { initialGameData with activePlayers := ["p"] } "p" "banana" 5 0).1

/-- Trace: a connected player sends a play event with side "draw". -/
def traceDrawBet : GameData :=
  (playHandler { initialGameData with activePlayers := ["p"] } "p" "draw" 100 0).1

/-! ### Helper lemmas about the association-list primitives -/

theorem lookupId_setId_self {α : Type} (m : List (String × α)) (id : String) (v : α) :
    lookupId (setId m id v) id = some v := by
  induction m with
  | nil => simp [setId, lookupId]
  | cons p rest ih =>
    unfold setId
    by_cases hp : (p.1 == id) = true
    · simp [hp, lookupId]
    · simp [hp, lookupId, ih]

theorem lookupId_deleteId_self {α : Type} (m : List (String × α)) (id : String) :
    lookupId (deleteId m id) id = none := by
  induction m with
  | nil => rfl
  | cons p rest ih =>
    unfold deleteId
    by_cases hp : (p.1 == id) = true
    · simp [hp, ih]
    · simp [hp, lookupId, ih]

theorem recordSide_fields (s : GameData) (id side : String) (pt : ℚ) :
    (recordSide s id side pt).currentBets = s.currentBets ∧
    (recordSide s id side pt).isRoundActive = s.isRoundActive ∧
    (recordSide s id side pt).gameHistory = s.gameHistory ∧
    (recordSide s id side pt).activePlayers = s.activePlayers := by
  unfold recordSide
  split
  · exact ⟨rfl, rfl, rfl, rfl⟩
  · split
    · exact ⟨rfl, rfl, rfl, rfl⟩
    · exact ⟨rfl, rfl, rfl, rfl⟩

theorem startIfIdle_fields (s : GameData) (now : Nat) :
    (startIfIdle s now).1.isRoundActive = true ∧
    (startIfIdle s now).1.currentBets = s.currentBets ∧
    (startIfIdle s now).1.head = s.head ∧
    (startIfIdle s now).1.tale = s.tale ∧
    (startIfIdle s now).1.gameHistory = s.gameHistory ∧
    (startIfIdle s now).1.activePlayers = s.activePlayers := by
  unfold startIfIdle startNewRound
  by_cases hact : s.isRoundActive
  · simp [hact]
  · simp [hact]

theorem endRound_ledger_preserved (s : GameData) :
    (endRound s).1.currentBets = s.currentBets ∧
    (endRound s).1.head = s.head ∧
    (endRound s).1.tale = s.tale ∧
    (endRound s).1.activePlayers = s.activePlayers := by
  unfold endRound
  by_cases hact : s.isRoundActive
  · simp [hact]
  · simp [hact]

/-! ### Claim theorems -/

/-- Claim C3: for all non-negative aggregate totals at settlement,
`headTotal < taleTotal` gives winner HEAD, `taleTotal < headTotal` gives
winner TALE, and equal totals (including both zero) give DRAW. -/
theorem winner_inversion (totalHead totalTale : ℚ)
    (_hh : 0 ≤ totalHead) (_ht : 0 ≤ totalTale) :
    (totalHead < totalTale → winnerOf totalHead totalTale = "head") ∧
    (totalTale < totalHead → winnerOf totalHead totalTale = "tale") ∧
    (totalHead = totalTale → winnerOf totalHead totalTale = "draw") := by
  unfold winnerOf
  refine ⟨fun h => ?_, fun h => ?_, fun h => ?_⟩
  · rw [if_neg (not_lt.mpr (le_of_lt h)), if_pos h]
  · rw [if_pos h]
  · rw [if_neg (by simp [h]), if_neg (by simp [h])]

/-- Witness for C3 at concrete totals. -/
theorem winner_inversion_witness :
    winnerOf 1 2 = "head" ∧ winnerOf 2 1 = "tale" ∧ winnerOf 2 2 = "draw" :=
  ⟨(winner_inversion 1 2 (by norm_num) (by norm_num)).1 (by norm_num),
   (winner_inversion 2 1 (by norm_num) (by norm_num)).2.1 (by norm_num),
   (winner_inversion 2 2 (by norm_num) (by norm_num)).2.2 rfl⟩

/-- Claim C5: `calculateMultiplier streak` is the two-decimal rendering of
`1.5 + min(streak - 1, 9) * 0.5`; the sample values hold, the value is
6.00 for every streak at least 10, and the underlying value is
monotonically non-decreasing in the streak. -/
theorem multiplier_formula_cap_mono :
    (∀ streak : Nat, calculateMultiplier streak =
      formatHundredths (150 + min ((streak : ℤ) - 1) 9 * 50)) ∧
    calculateMultiplier 1 = "1.50" ∧
    calculateMultiplier 5 = "3.50" ∧
    calculateMultiplier 10 = "6.00" ∧
    (∀ streak : Nat, 10 ≤ streak → calculateMultiplier streak = "6.00") ∧
    (∀ a b : Nat, a ≤ b → multiplierHundredths a ≤ multiplierHundredths b) := by
  refine ⟨fun _ => rfl, by decide, by decide, by decide, ?_, ?_⟩
  · intro streak h
    have hm : multiplierHundredths streak = 600 := by
      unfold multiplierHundredths
      rw [min_eq_right (by omega)]
      norm_num
    unfold calculateMultiplier
    rw [hm]
    decide
  · intro a b h
    unfold multiplierHundredths
    omega

/-- Witness for C5 at concrete streak values. -/
theorem multiplier_formula_cap_mono_witness :
    calculateMultiplier 20 = "6.00" ∧ multiplierHundredths 2 ≤ multiplierHundredths 7 :=
  ⟨multiplier_formula_cap_mono.2.2.2.2.1 20 (by decide),
   multiplier_formula_cap_mono.2.2.2.2.2 2 7 (by decide)⟩

/-- Claim C6: `calculateStreak` returns 0 on the empty history and at
least 1 otherwise; it counts the consecutive entries equal to the last
entry scanning backward from the tail (one plus the matching run of the
reversed prefix, which equals the takeWhile length); the sample history
gives 3, and a DRAW after two HEADs gives 1. -/
theorem streak_tail_count :
    calculateStreak [] = 0 ∧
    (∀ h : List String, h ≠ [] → 1 ≤ calculateStreak h) ∧
    (∀ (l : List String) (a : String),
      calculateStreak (l ++ [a]) = 1 + countRun a l.reverse) ∧
    (∀ (a : String) (l : List String),
      countRun a l = (l.takeWhile (fun x => x == a)).length) ∧
    calculateStreak ["head", "head", "tale", "head", "head", "head"] = 3 ∧
    calculateStreak ["head", "head", "draw"] = 1 := by
  refine ⟨rfl, ?_, ?_, ?_, by decide, by decide⟩
  · intro h hne
    rcases hr : h.reverse with _ | ⟨a, t⟩
    · exact absurd (List.reverse_eq_nil_iff.mp hr) hne
    · have he : calculateStreak h = 1 + countRun a t := by
        unfold calculateStreak
        rw [hr]
      omega
  · intro l a
    unfold calculateStreak
    rw [List.reverse_append]
    rfl
  · intro a l
    induction l with
    | nil => rfl
    | cons x xs ih =>
      by_cases hx : (x == a) = true
      · simp only [countRun, hx, if_true, ih, List.takeWhile_cons, List.length_cons]
        omega
      · simp [countRun, hx, List.takeWhile_cons]

/-- Witness for C6's nonempty-history conjunct at a concrete history. -/
theorem streak_tail_count_witness : 1 ≤ calculateStreak ["tale"] :=
  streak_tail_count.2.1 ["tale"] (by decide)

theorem pushHistory_shift (l : List String) (w : String) :
    pushHistory (l.drop (l.length - 10)) w = (l ++ [w]).drop (l.length + 1 - 10) := by
  unfold pushHistory
  rw [List.length_drop, List.drop_drop, List.drop_append_of_le_length (by omega)]
  have hk : l.length - 10 + (l.length - (l.length - 10) - 9) = l.length + 1 - 10 := by
    omega
  rw [hk]

theorem foldl_pushHistory_drop (ws : List String) :
    List.foldl pushHistory [] ws = ws.drop (ws.length - 10) := by
  induction ws using List.reverseRecOn with
  | nil => rfl
  | append_singleton l w ih =>
    rw [List.foldl_append, List.foldl_cons, List.foldl_nil, ih,
      pushHistory_shift l w, List.length_append]
    simp

/-- Claim C8: settlement appends the winner to the history with a
FIFO window: the history after folding any outcome sequence from the
empty history is exactly the last (at most) 10 outcomes in order, hence
its length never exceeds 10 and is exactly 10 once 10 or more rounds
(in particular 11) have settled. -/
theorem history_window :
    (∀ s : GameData, s.isRoundActive = true →
      (endRound s).1.gameHistory =
        pushHistory s.gameHistory (winnerOf (totalOf s.head) (totalOf s.tale))) ∧
    (∀ ws : List String, List.foldl pushHistory [] ws = ws.drop (ws.length - 10)) ∧
    (∀ ws : List String, (List.foldl pushHistory [] ws).length ≤ 10) ∧
    (∀ ws : List String, 10 ≤ ws.length →
      (List.foldl pushHistory [] ws).length = 10) := by
  refine ⟨?_, foldl_pushHistory_drop, ?_, ?_⟩
  · intro s h
    simp [endRound, h]
  · intro ws
    rw [foldl_pushHistory_drop, List.length_drop]
    omega
  · intro ws h
    rw [foldl_pushHistory_drop, List.length_drop]
    omega

/-- Witness for C8: a concrete settlement and an 11-outcome sequence. -/
theorem history_window_witness :
    (endRound sampleActiveState).1.gameHistory =
      pushHistory sampleActiveState.gameHistory
        (winnerOf (totalOf sampleActiveState.head) (totalOf sampleActiveState.tale)) ∧
    (List.foldl pushHistory [] ["head", "tale", "head", "head", "draw", "tale",
      "tale", "head", "draw", "head", "tale"]).length = 10 :=
  ⟨history_window.1 sampleActiveState rfl,
   history_window.2.2.2 ["head", "tale", "head", "head", "draw", "tale",
      "tale", "head", "draw", "head", "tale"] (by decide)⟩

/-- Claim C9: a second play event from a participant id that already has
a wager in `currentBets` is silently rejected: the state is returned
unchanged and nothing is emitted. -/
theorem no_double_wager (s : GameData) (id side : String) (pt : ℚ) (now : Nat)
    (h : (lookupId s.currentBets id).isSome = true) :
    playHandler s id side pt now = (s, []) := by
  unfold playHandler
  rw [if_pos h]

/-- Witness for C9: player A of the sample round bets again. -/
theorem no_double_wager_witness :
    playHandler sampleActiveState "A" "tale" 99 5 = (sampleActiveState, []) :=
  no_double_wager sampleActiveState "A" "tale" 99 5 (by decide)

/-- Claim C10: when the disconnect handler removes the last active
participant, the round is forced inactive with its end time cleared and
only membership notifications are emitted; and a round-expiry trigger
(`endRound`) firing on a state whose round is not active is a no-op that
emits nothing, so a settled event is never produced for the abandoned
round. -/
theorem forced_idle_and_stale_timer :
    (∀ (s : GameData) (id : String), s.activePlayers.erase id = [] →
      (disconnectHandler s id).1.isRoundActive = false ∧
      (disconnectHandler s id).1.roundEndTime = none ∧
      (disconnectHandler s id).2 =
        [Emit.updateActivePlayers [], Emit.playerLeft id []]) ∧
    (∀ s : GameData, s.isRoundActive = false → endRound s = (s, [])) := by
  constructor
  · intro s id h
    simp [disconnectHandler, h]
  · intro s h
    simp [endRound, h]

/-- Witness for C10: the solo player disconnects mid-round, and the
expiry trigger is a no-op on an inactive state. -/
theorem forced_idle_and_stale_timer_witness :
    (disconnectHandler soloActiveState "p").1.isRoundActive = false ∧
    endRound idleState = (idleState, []) :=
  ⟨(forced_idle_and_stale_timer.1 soloActiveState "p" (by decide)).1,
   forced_idle_and_stale_timer.2 idleState rfl⟩

/-- Counterexample to claim C1: from a reachable post-settlement state
that still has an active participant, the cooldown reset leaves the
round inactive and emits only `reset-game` — no round is started and no
round-started notification is produced. -/
theorem cooldown_no_autorestart_cex :
    traceAfterSettle.activePlayers = ["p"] ∧
    traceAfterSettle.isRoundActive = false ∧
    (cooldownReset traceAfterSettle).1.isRoundActive = false ∧
    (cooldownReset traceAfterSettle).2 = [Emit.resetGame] := by decide

/-- Claim C1 amended: when the 3-second cooldown ends the wager maps are
cleared and only a reset notification is emitted; the round stays
inactive regardless of how many participants remain, and a new round
starts only when the next accepted wager arrives, which activates the
round immediately. -/
theorem cooldown_keeps_idle :
    (∀ s : GameData,
      (cooldownReset s).1.isRoundActive = s.isRoundActive ∧
      (cooldownReset s).1.head = [] ∧
      (cooldownReset s).1.tale = [] ∧
      (cooldownReset s).1.currentBets = [] ∧
      (cooldownReset s).2 = [Emit.resetGame]) ∧
    (∀ (s : GameData) (id side : String) (pt : ℚ) (now : Nat),
      lookupId s.currentBets id = none →
      (playHandler s id side pt now).1.isRoundActive = true) := by
  constructor
  · intro s
    exact ⟨rfl, rfl, rfl, rfl, rfl⟩
  · intro s id side pt now h
    unfold playHandler
    rw [h]
    show (recordSide (startIfIdle s now).1 id side pt).isRoundActive = true
    rw [(recordSide_fields (startIfIdle s now).1 id side pt).2.1]
    exact (startIfIdle_fields s now).1

/-- Witness for C1 amended: reset on the initial state, and a first
wager activating a round. -/
theorem cooldown_keeps_idle_witness :
    (cooldownReset initialGameData).1.currentBets = [] ∧
    (playHandler initialGameData "p" "head" 5 0).1.isRoundActive = true :=
  ⟨(cooldown_keeps_idle.1 initialGameData).2.2.2.1,
   cooldown_keeps_idle.2 initialGameData "p" "head" 5 0 rfl⟩

/-- Counterexample to claim C2: A's wager is recorded in the active
round, yet after A disconnects the round is still active (B remains) and
A's wager is gone from the ledger; the round then settles containing
only B's wager.  The recorded wager did not persist in the ledger until
its round settled. -/
theorem wager_not_persistent_cex :
    (lookupId traceTwoBets.currentBets "A").isSome = true ∧
    traceTwoBets.isRoundActive = true ∧
    traceAfterLeave.isRoundActive = true ∧
    lookupId traceAfterLeave.currentBets "A" = none ∧
    (endRound traceAfterLeave).2 = [Emit.gameResult 0 30 "head" 1 "1.50" ["head"]
      [("B", { won := false, amount := 0, originalBet := 30, side := "tale" })]] := by
  refine ⟨by decide, by decide, by decide, by decide, ?_⟩
  simp [traceAfterLeave, traceTwoBets, playHandler, connectionHandler, startIfIdle,
    startNewRound, recordSide, setId, lookupId, deleteId, disconnectHandler,
    initialGameData, endRound, totalOf, winnerOf, pushHistory, calculateStreak,
    countRun, computeResults, calculateMultiplier, multiplierHundredths,
    multiplierValue, formatHundredths]
  refine ⟨by decide, ?_⟩
  rw [if_neg (by norm_num)]
  decide

/-- Claim C2 amended: a non-duplicate play event always leaves the round
active and its wager recorded in `currentBets` (so recording happens only
while the round is active, and a wager arriving while inactive activates
the round and is recorded in it); settlement preserves the ledger, but
the wager does not necessarily persist until settlement: a disconnect
purges the participant's wager, and the cooldown reset clears the whole
ledger. -/
theorem wager_ledger_rules :
    (∀ (s : GameData) (id side : String) (pt : ℚ) (now : Nat),
      lookupId s.currentBets id = none →
      (playHandler s id side pt now).1.isRoundActive = true ∧
      lookupId (playHandler s id side pt now).1.currentBets id =
        some { side := side, amount := pt }) ∧
    (∀ s : GameData, (endRound s).1.currentBets = s.currentBets) ∧
    (∀ (s : GameData) (id : String),
      lookupId (disconnectHandler s id).1.currentBets id = none) ∧
    (∀ s : GameData, (cooldownReset s).1.currentBets = []) := by
  refine ⟨?_, ?_, ?_, fun _ => rfl⟩
  · intro s id side pt now h
    constructor
    · unfold playHandler
      rw [h]
      show (recordSide (startIfIdle s now).1 id side pt).isRoundActive = true
      rw [(recordSide_fields (startIfIdle s now).1 id side pt).2.1]
      exact (startIfIdle_fields s now).1
    · unfold playHandler
      rw [h]
      show lookupId (setId (recordSide (startIfIdle s now).1 id side pt).currentBets id
        { side := side, amount := pt }) id = some { side := side, amount := pt }
      exact lookupId_setId_self _ _ _
  · intro s
    exact (endRound_ledger_preserved s).1
  · intro s id
    unfold disconnectHandler
    by_cases h : (s.activePlayers.erase id).isEmpty
    · simp only [h, if_true]
      exact lookupId_deleteId_self s.currentBets id
    · simp only [h, if_false]
      exact lookupId_deleteId_self s.currentBets id

/-- Witness for C2 amended: a first wager from a fresh participant. -/
theorem wager_ledger_rules_witness :
    (playHandler initialGameData "Z" "head" 7 0).1.isRoundActive = true ∧
    lookupId (playHandler initialGameData "Z" "head" 7 0).1.currentBets "Z" =
      some { side := "head", amount := 7 } :=
  wager_ledger_rules.1 initialGameData "Z" "head" 7 0 rfl

/-- Counterexample to claim C4: a play event with side "banana" is not
rejected — it starts a round, is recorded in `currentBets`, and blocks
the participant's next (valid) wager; and a negative amount is accepted
into the head map, changing the head total. -/
theorem invalid_wager_not_rejected_cex :
    traceInvalidSide.isRoundActive = true ∧
    lookupId traceInvalidSide.currentBets "p" = some { side := "banana", amount := 5 } ∧
    playHandler traceInvalidSide "p" "head" 7 1 = (traceInvalidSide, []) ∧
    (playHandler { initialGameData with activePlayers := ["p"] } "p" "head" (-5) 0).1.head
      = [("p", -5)] ∧
    totalOf (playHandler { initialGameData with activePlayers := ["p"] }
      "p" "head" (-5) 0).1.head = -5 := by
  refine ⟨by decide, by decide, by decide, by decide, ?_⟩
  simp [playHandler, initialGameData, startIfIdle, startNewRound, recordSide,
    setId, lookupId, totalOf]

/-- Claim C4 amended: a wager whose side is neither "head" nor "tale"
is recorded in neither side map (so it changes neither side total), but
it is still recorded in `currentBets`, still starts a round when none is
active, and blocks the participant from wagering again that round;
amounts are not validated at all. -/
theorem invalid_side_partial_record (s : GameData) (id side : String) (pt : ℚ)
    (now : Nat) (hs1 : side ≠ "head") (hs2 : side ≠ "tale")
    (hdup : lookupId s.currentBets id = none) :
    (playHandler s id side pt now).1.head = s.head ∧
    (playHandler s id side pt now).1.tale = s.tale ∧
    lookupId (playHandler s id side pt now).1.currentBets id =
      some { side := side, amount := pt } ∧
    (playHandler s id side pt now).1.isRoundActive = true := by
  have hbh : (side == "head") = false := beq_eq_false_iff_ne.mpr hs1
  have hbt : (side == "tale") = false := beq_eq_false_iff_ne.mpr hs2
  have hrs : recordSide (startIfIdle s now).1 id side pt = (startIfIdle s now).1 := by
    unfold recordSide
    rw [hbh, hbt]
    simp
  refine ⟨?_, ?_, ?_, ?_⟩
  · unfold playHandler
    rw [hdup]
    show (recordSide (startIfIdle s now).1 id side pt).head = s.head
    rw [hrs]
    exact (startIfIdle_fields s now).2.2.1
  · unfold playHandler
    rw [hdup]
    show (recordSide (startIfIdle s now).1 id side pt).tale = s.tale
    rw [hrs]
    exact (startIfIdle_fields s now).2.2.2.1
  · unfold playHandler
    rw [hdup]
    show lookupId (setId (recordSide (startIfIdle s now).1 id side pt).currentBets id
      { side := side, amount := pt }) id = some { side := side, amount := pt }
    exact lookupId_setId_self _ _ _
  · unfold playHandler
    rw [hdup]
    show (recordSide (startIfIdle s now).1 id side pt).isRoundActive = true
    rw [(recordSide_fields (startIfIdle s now).1 id side pt).2.1]
    exact (startIfIdle_fields s now).1

/-- Witness for C4 amended: a wager with side "blue" on the initial
state. -/
theorem invalid_side_partial_record_witness :
    (playHandler initialGameData "p" "blue" 9 0).1.head = [] ∧
    (playHandler initialGameData "p" "blue" 9 0).1.tale = [] ∧
    lookupId (playHandler initialGameData "p" "blue" 9 0).1.currentBets "p" =
      some { side := "blue", amount := 9 } ∧
    (playHandler initialGameData "p" "blue" 9 0).1.isRoundActive = true :=
  invalid_side_partial_record initialGameData "p" "blue" 9 0
    (by decide) (by decide) rfl

/-- Counterexample to claim C7: a wager recorded with side "draw"
(accepted by the unvalidated play handler) is paid on a draw outcome:
the settlement marks it won with payout 100 × 1.50 = 150, not 0. -/
theorem draw_side_paid_cex :
    (endRound traceDrawBet).2 = [Emit.gameResult 0 0 "draw" 1 "1.50" ["draw"]
      [("p", { won := true, amount := 150, originalBet := 100, side := "draw" })]] := by
  simp [traceDrawBet, playHandler, initialGameData, startIfIdle, startNewRound,
    recordSide, setId, lookupId, endRound, totalOf, winnerOf, pushHistory,
    calculateStreak, countRun, computeResults, calculateMultiplier,
    multiplierHundredths, multiplierValue, formatHundredths]
  norm_num
  decide

/-- Claim C7 amended: when a round settles as a draw, every wager whose
recorded side differs from "draw" has `won = false` and payout 0, while a
wager recorded with the side "draw" itself is marked won and paid its
amount times the multiplier; equal side totals make the active round
settle as a draw with exactly these results. -/
theorem draw_pays_nothing_valid_sides :
    (∀ (bets : List (String × Bet)) (mult : ℚ) (pr : String × PlayerResult),
      pr ∈ computeResults bets "draw" mult → pr.2.side ≠ "draw" →
      pr.2.won = false ∧ pr.2.amount = 0) ∧
    (∀ (bets : List (String × Bet)) (mult : ℚ) (pr : String × PlayerResult),
      pr ∈ computeResults bets "draw" mult → pr.2.side = "draw" →
      pr.2.won = true ∧ pr.2.amount = pr.2.originalBet * mult) ∧
    (∀ s : GameData, s.isRoundActive = true →
      totalOf s.head = totalOf s.tale →
      (endRound s).2 = [Emit.gameResult (totalOf s.head) (totalOf s.tale) "draw"
        (calculateStreak (pushHistory s.gameHistory "draw"))
        (calculateMultiplier (calculateStreak (pushHistory s.gameHistory "draw")))
        (pushHistory s.gameHistory "draw")
        (computeResults s.currentBets "draw"
          (multiplierValue (calculateStreak (pushHistory s.gameHistory "draw"))))]) := by
  refine ⟨?_, ?_, ?_⟩
  · intro bets mult pr hmem hside
    rcases List.mem_map.mp hmem with ⟨b, hb, rfl⟩
    have hb2 : (b.2.side == "draw") = false := beq_eq_false_iff_ne.mpr hside
    constructor
    · exact hb2
    · show (if (b.2.side == "draw") = true then b.2.amount * mult else 0) = 0
      rw [hb2]
      simp
  · intro bets mult pr hmem hside
    rcases List.mem_map.mp hmem with ⟨b, hb, rfl⟩
    have hb2 : (b.2.side == "draw") = true := beq_iff_eq.mpr hside
    constructor
    · exact hb2
    · show (if (b.2.side == "draw") = true then b.2.amount * mult else 0) = b.2.amount * mult
      rw [hb2]
      simp
  · intro s hact heq
    have hw : winnerOf (totalOf s.head) (totalOf s.tale) = "draw" := by
      unfold winnerOf
      rw [heq]
      simp
    simp [endRound, hact, hw]

/-- Witness for C7 amended: the spec's balanced 100/100 round settles as
a draw and its head-side wager is unpaid. -/
theorem draw_pays_nothing_valid_sides_witness :
    (endRound sampleDrawState).2 = [Emit.gameResult (totalOf sampleDrawState.head)
      (totalOf sampleDrawState.tale) "draw"
      (calculateStreak (pushHistory sampleDrawState.gameHistory "draw"))
      (calculateMultiplier (calculateStreak (pushHistory sampleDrawState.gameHistory "draw")))
      (pushHistory sampleDrawState.gameHistory "draw")
      (computeResults sampleDrawState.currentBets "draw"
        (multiplierValue (calculateStreak (pushHistory sampleDrawState.gameHistory "draw"))))] ∧
    ("A", ({ won := false, amount := 0, originalBet := 100, side := "head" } :
      PlayerResult)).2.won = false ∧
    ("A", ({ won := false, amount := 0, originalBet := 100, side := "head" } :
      PlayerResult)).2.amount = 0 :=
  ⟨draw_pays_nothing_valid_sides.2.2 sampleDrawState rfl (by simp [sampleDrawState, totalOf]),
   (draw_pays_nothing_valid_sides.1
      [("A", { side := "head", amount := 100 }), ("B", { side := "tale", amount := 100 })]
      (3 / 2) ("A", { won := false, amount := 0, originalBet := 100, side := "head" })
      (by decide) (by decide)).1,
   (draw_pays_nothing_valid_sides.1
      [("A", { side := "head", amount := 100 }), ("B", { side := "tale", amount := 100 })]
      (3 / 2) ("A", { won := false, amount := 0, originalBet := 100, side := "head" })
      (by decide) (by decide)).2⟩

end GameBackend
